import Mathlib

/-!
Verification of the substack-newsletters-search repository.

This file gives a shallow embedding of the two core components of the
repository — the retrieval/dedup pipeline of
`src/api/services/search_service.py` and the multi-backend generation
layer of `src/api/services/generation_service.py` together with the three
provider adapters under `src/api/services/providers/` — and proves the
specified properties about them.

Modelling conventions:
* The similarity index (Qdrant), the three LLM backends and the evaluation
  step are external collaborators; they enter the model as explicit inputs
  (the candidate list returned by `query_points`, oracle functions from the
  request actually sent to the backend's response / chunk stream).
* Python exceptions are modelled with `Except String`; an async generator
  that may raise mid-iteration is modelled by the list of chunks delivered
  before the failure plus an optional exception (`StreamOutcome`).
* Python truthiness on `str | None` values (`if delta_text:`,
  `x or y`) is modelled by the `pyTruthy` / `pyStrOr` / `pyOptOr` helpers:
  `None` and the empty string are falsy.
* Relevance scores are floats the code never computes with; they are kept
  abstract as a type parameter `σ`.
* Logging and tracing decorators are side effects with no influence on the
  returned values and are dropped.
-/

/-! ## Data model of the search service (`search_service.py`) -/

/-- The payload stored with a point in the vector store.  The code reads it
with `payload.get(key)` / `payload.get("title", "")`, so every field is
optional. -/
structure Payload where
  title : Option String
  feed_author : Option String
  feed_name : Option String
  article_authors : Option String
  url : Option String
  chunk_text : Option String
  deriving Repr, DecidableEq

/-- A scored point as returned by `vectorstore.client.query_points` (the
similarity index): `point.id`, `point.payload`, `point.score`.  The score is
never computed with, so it stays an abstract parameter `σ`. -/
structure ScoredPoint (σ : Type) where
  id : String
  payload : Option Payload
  score : σ
  deriving Repr, DecidableEq

/-- Modelled from the spec: the `SearchResult` record of
`src/api/models/api_models.py` (that module is not part of the sources;
the field list is taken from the spec data model `RetrievalCandidate` and
from the construction sites in `search_service.py`). -/
structure SearchResult (σ : Type) where
  title : String
  feed_author : Option String
  feed_name : Option String
  article_author : Option String
  url : Option String
  chunk_text : Option String
  score : σ
  deriving Repr, DecidableEq

/-- `point.payload or {}`: a missing payload behaves as an empty dict. -/
def payloadOrEmpty : Option Payload → Payload
  | some p => p
  | none => { title := none, feed_author := none, feed_name := none,
              article_authors := none, url := none, chunk_text := none }

/-- `payload.get("title")` of a point. -/
def titleOf {σ : Type} (p : ScoredPoint σ) : Option String :=
  (payloadOrEmpty p.payload).title

/-- The title-dedup key of a point: the stored title, `""` when absent.
For a point accepted by the title loop this is exactly the `title` value the
loop saw (which is then neither `None` nor `""`). -/
def titleKey {σ : Type} (p : ScoredPoint σ) : String :=
  (titleOf p).getD ""

/-- Python truthiness of a `str | None` value: `None` and `""` are falsy. -/
def pyTruthy : Option String → Bool
  | none => false
  | some s => s != ""

/-- `x or default` on a `str | None` value `x` (Python `or`). -/
def pyStrOr : Option String → String → String
  | none, d => d
  | some s, d => if s = "" then d else s

/-- `x or y` on two `str | None` values (Python `or`). -/
def pyOptOr : Option String → Option String → Option String
  | none, b => b
  | some s, b => if s = "" then b else some s

/-- The `SearchResult(...)` built for a point in `query_with_filters`
(lines 86–96 of `search_service.py`). -/
def mkResultById {σ : Type} (p : ScoredPoint σ) : SearchResult σ :=
  let payload := payloadOrEmpty p.payload
  { title := payload.title.getD ""
    feed_author := payload.feed_author
    feed_name := payload.feed_name
    article_author := payload.article_authors
    url := payload.url
    chunk_text := payload.chunk_text
    score := p.score }

/-- The `SearchResult(...)` built for a point in `query_unique_titles`
(lines 171–181 of `search_service.py`); `title` is the dedup title itself. -/
def mkResultByTitle {σ : Type} (p : ScoredPoint σ) : SearchResult σ :=
  let payload := payloadOrEmpty p.payload
  { title := titleKey p
    feed_author := payload.feed_author
    feed_name := payload.feed_name
    article_author := payload.article_authors
    url := payload.url
    chunk_text := payload.chunk_text
    score := p.score }

/-- The dedup-by-point-id loop of `query_with_filters` (lines 78–96):
skip a point whose id was already seen, otherwise record the id and append
the result.  The Python `set` of seen ids is modelled as a list. -/
def dedup_by_id {σ : Type} : List (ScoredPoint σ) → List String → List (SearchResult σ)
  | [], _ => []
  | p :: rest, seen =>
    if p.id ∈ seen then dedup_by_id rest seen
    else mkResultById p :: dedup_by_id rest (p.id :: seen)

/-- Ghost version of `dedup_by_id` that keeps the selected points themselves
(used to state order/dedup properties). -/
def selectById {σ : Type} : List (ScoredPoint σ) → List String → List (ScoredPoint σ)
  | [], _ => []
  | p :: rest, seen =>
    if p.id ∈ seen then selectById rest seen
    else p :: selectById rest (p.id :: seen)

/-- `fetch_limit = max(1, limit) * 100` in `query_with_filters`. -/
def fetch_limit_ids (limit : Nat) : Nat := max 1 limit * 100

/-- `fetch_limit = max(1, limit) * 280` in `query_unique_titles`. -/
def fetch_limit_titles (limit : Nat) : Nat := max 1 limit * 280

/-- `query_with_filters` (lines 20–100 of `search_service.py`), as a function
of the candidate list the similarity index returned (`response.points`, in
fused-score order) and the requested `limit`: deduplicate by point id, then
truncate with `results[:limit]`. -/
def query_with_filters {σ : Type} (points : List (ScoredPoint σ)) (limit : Nat) :
    List (SearchResult σ) :=
  (dedup_by_id points []).take limit

/-- The dedup-by-title loop of `query_unique_titles` (lines 162–183):
`title = payload.get("title")`; `if not title or title in seen_titles:
continue`; otherwise record the title, append the result, and break once
`len(results) >= limit` — the stop check runs only AFTER an append. -/
def unique_titles_loop {σ : Type} (limit : Nat) :
    List (ScoredPoint σ) → List String → List (SearchResult σ) → List (SearchResult σ)
  | [], _, results => results
  | p :: rest, seen, results =>
    match titleOf p with
    | none => unique_titles_loop limit rest seen results
    | some title =>
      if title = "" ∨ title ∈ seen then unique_titles_loop limit rest seen results
      else
        let results2 := results ++ [mkResultByTitle p]
        if limit ≤ results2.length then results2
        else unique_titles_loop limit rest (title :: seen) results2

/-- Ghost version of the title loop keeping the selected points; `r` is the
remaining budget `limit - len(results)`.  Because the Python loop checks
`len(results) >= limit` only after appending, a budget of `0` or `1` still
selects one more point before stopping. -/
def selectByTitle {σ : Type} : Nat → List (ScoredPoint σ) → List String → List (ScoredPoint σ)
  | _, [], _ => []
  | r, p :: rest, seen =>
    match titleOf p with
    | none => selectByTitle r rest seen
    | some title =>
      if title = "" ∨ title ∈ seen then selectByTitle r rest seen
      else if r ≤ 1 then [p]
      else p :: selectByTitle (r - 1) rest (title :: seen)

/-- `query_unique_titles` (lines 103–188 of `search_service.py`), as a
function of the candidate list returned by the similarity index. -/
def query_unique_titles {σ : Type} (points : List (ScoredPoint σ)) (limit : Nat) :
    List (SearchResult σ) :=
  unique_titles_loop limit points [] []

/-- Decidable form of "the point has a usable title" (non-`None`, non-empty):
the points the title loop does not skip for lack of a title. -/
def pyHasTitle {σ : Type} (p : ScoredPoint σ) : Bool :=
  match titleOf p with
  | none => false
  | some t => t != ""

/-! ## Data model of the generation layer -/

/-- One chat message as produced by `build_messages` in
`providers/utils/messages.py`. -/
structure ChatMessageParam where
  role : String
  content : String
  deriving Repr, DecidableEq

/-- `build_messages(prompt)`: a single user message. -/
def build_messages (prompt : String) : List ChatMessageParam :=
  [{ role := "user", content := prompt }]

/-- The OpenRouter priority sort enum of `provider_models.py`. -/
inductive ProviderSort where
  | latency
  deriving Repr, DecidableEq

/-- The string value of a `ProviderSort` member. -/
def ProviderSort.value : ProviderSort → String
  | .latency => "latency"

/-- `ModelConfig` of `provider_models.py`.  The float `temperature` is
modelled as a rational; nothing computes with it. -/
structure ModelConfig where
  primary_model : String
  candidate_models : List String
  provider_sort : ProviderSort
  stream : Bool
  max_completion_tokens : Nat
  temperature : ℚ
  deriving Repr, DecidableEq

/-- The pydantic field defaults of `ModelConfig`. -/
def defaultModelConfig : ModelConfig :=
  { primary_model := ""
    candidate_models := []
    provider_sort := .latency
    stream := false
    max_completion_tokens := 5000
    temperature := 0 }

/-- `ModelRegistry` of `provider_models.py`: a mapping from provider name to
`ModelConfig` (the Python dict is modelled as an association list with
distinct keys). -/
structure ModelRegistry where
  models : List (String × ModelConfig)
  deriving Repr, DecidableEq

/-- ASCII model of Python `str.lower()` (all strings involved are ASCII). -/
def pyLower (s : String) : String := ⟨s.data.map Char.toLower⟩

/-- `ModelRegistry.get_config` (lines 31–46 of `provider_models.py`): lower
the provider name, raise `ValueError` when it is not registered. -/
def ModelRegistry.get_config (reg : ModelRegistry) (provider : String) :
    Except String ModelConfig :=
  match reg.models.lookup (pyLower provider) with
  | none => Except.error ("ModelConfig not found for provider: " ++ provider)
  | some c => Except.ok c

/-- The default `MODEL_REGISTRY` of `provider_models.py`: `openrouter` and
`huggingface` are registered; the `openai` entry is commented out. -/
def MODEL_REGISTRY : ModelRegistry :=
  { models :=
      [("openrouter",
        { defaultModelConfig with
          primary_model := "openai/gpt-oss-20b:free"
          candidate_models :=
            ["cognitivecomputations/dolphin-mistral-24b-venice-edition:free",
             "nvidia/nemotron-nano-9b-v2:free"] }),
       ("huggingface",
        { defaultModelConfig with primary_model := "deepseek-ai/DeepSeek-R1" })] }

/-- The `extra_body` built by `build_openrouter_extra` in
`openrouter_service.py`: the provider sort, and the candidate models when the
list is non-empty. -/
structure OpenRouterExtra where
  sort : String
  models : Option (List String)
  deriving Repr, DecidableEq

/-- `build_openrouter_extra(config)` (lines 39–53 of `openrouter_service.py`). -/
def build_openrouter_extra (config : ModelConfig) : OpenRouterExtra :=
  { sort := config.provider_sort.value
    models := if config.candidate_models.isEmpty then none
              else some config.candidate_models }

/-- The request an adapter hands to `chat.completions.create`; the
Hugging Face SDK names the token bound `max_tokens`, the OpenAI SDK
`max_completion_tokens` — both carry `config.max_completion_tokens` and are
normalized to one field here.  `extra` is the OpenRouter `extra_body`. -/
structure ChatRequest where
  model : String
  messages : List ChatMessageParam
  temperature : ℚ
  max_tokens : Nat
  stream : Bool
  extra : Option OpenRouterExtra
  deriving Repr, DecidableEq

/-- The request built by `generate_openrouter` / `stream_openrouter`:
`model = selected_model or config.primary_model` (Python `or`, so an empty
override falls back to the primary model). -/
def openrouter_request (prompt : String) (config : ModelConfig)
    (selected_model : Option String) (stream : Bool) : ChatRequest :=
  { model := pyStrOr selected_model config.primary_model
    messages := build_messages prompt
    temperature := config.temperature
    max_tokens := config.max_completion_tokens
    stream := stream
    extra := some (build_openrouter_extra config) }

/-- The request built by `generate_openai` (line 53–63 of
`openai_service.py`): the model is the hard-coded literal `"gpt-4o-mini"`,
not `config.primary_model`, and there is no override parameter. -/
def openai_gen_request (prompt : String) (config : ModelConfig) : ChatRequest :=
  { model := "gpt-4o-mini"
    messages := build_messages prompt
    temperature := config.temperature
    max_tokens := config.max_completion_tokens
    stream := false
    extra := none }

/-- The request built by `stream_openai`: `config.primary_model`. -/
def openai_stream_request (prompt : String) (config : ModelConfig) : ChatRequest :=
  { model := config.primary_model
    messages := build_messages prompt
    temperature := config.temperature
    max_tokens := config.max_completion_tokens
    stream := true
    extra := none }

/-- The request built by `generate_huggingface` / `stream_huggingface`:
`config.primary_model`. -/
def huggingface_request (prompt : String) (config : ModelConfig)
    (stream : Bool) : ChatRequest :=
  { model := config.primary_model
    messages := build_messages prompt
    temperature := config.temperature
    max_tokens := config.max_completion_tokens
    stream := stream
    extra := none }

/-- `resp.choices[0].message`. -/
structure ChatMessage where
  content : Option String
  deriving Repr, DecidableEq

/-- `resp.choices[0]` with the attributes the code reads via `getattr`. -/
structure ChatChoice where
  message : ChatMessage
  finish_reason : Option String
  native_finish_reason : Option String
  model : Option String
  deriving Repr, DecidableEq

/-- A non-streaming completion response.  The SDK guarantees at least one
choice; `choice0` models `resp.choices[0]`. -/
structure ChatResponse where
  choice0 : ChatChoice
  model : Option String
  deriving Repr, DecidableEq

/-- `resp.choices[0].message.content or ""`. -/
def answer_of (resp : ChatResponse) : String :=
  pyStrOr resp.choice0.message.content ""

/-- One chunk of a streamed completion, with the attributes the adapters read
(`chunk.model`, `chunk.choices[0].delta.content`,
`chunk.choices[0].finish_reason`). -/
structure StreamChunk where
  model : Option String
  delta_content : Option String
  finish_reason : Option String
  deriving Repr, DecidableEq

/-- The observable behaviour of one backend stream: the chunks delivered in
order, and an optional exception raised after them (`none` = the stream ended
normally). -/
structure StreamOutcome where
  chunks : List StreamChunk
  error : Option String
  deriving Repr, DecidableEq

/-- The truthy delta of a chunk (`if delta_text:` keeps only non-`None`,
non-empty content). -/
def chunkDelta (c : StreamChunk) : Option String :=
  match c.delta_content with
  | some s => if s = "" then none else some s
  | none => none

/-- All truthy delta fragments of a chunk list, in order. -/
def pyDeltas (chunks : List StreamChunk) : List String :=
  chunks.filterMap chunkDelta

/-- The running `last_finish_reason` variable: updated to a chunk's
finish-reason whenever that reason is truthy. -/
def lastFinish : List StreamChunk → Option String → Option String
  | [], last => last
  | c :: rest, last =>
    lastFinish rest (if pyTruthy c.finish_reason then c.finish_reason else last)

/-- The shared streaming loop body of `stream_openai` (lines 89–105) and of
the tail of `stream_openrouter` (lines 151–168): yield each truthy delta,
track the last truthy finish-reason, and after the loop yield one
`"__truncated__"` marker when that reason is `"length"`. -/
def stream_body : List StreamChunk → Option String → List String
  | [], last => if last = some "length" then ["__truncated__"] else []
  | c :: rest, last =>
    (chunkDelta c).toList ++
      stream_body rest (if pyTruthy c.finish_reason then c.finish_reason else last)

/-- `stream_openai(prompt, config)` applied to the chunk list the backend
streams back: the adapter's loop with no special first-chunk handling. -/
def stream_openai (chunks : List StreamChunk) : List String :=
  stream_body chunks none

/-- The marker prefix `"__model_used__:"` of `stream_openrouter`. -/
def modelUsedTag : String := "__model_used__:"

/-- The first-chunk handling of `stream_openrouter` (lines 141–147): yield
`"__model_used__:<model>"` when the first chunk reveals a truthy model, then
the first chunk's truthy delta.  The first chunk's finish-reason is never
inspected. -/
def orFirstOut (first : StreamChunk) : List String :=
  (match first.model with
   | some m => if m = "" then [] else [modelUsedTag ++ m]
   | none => []) ++ (chunkDelta first).toList

/-- `stream_openrouter(prompt, config, selected_model)` applied to the chunk
list the backend streams back: empty stream → `StopAsyncIteration` → no
output; otherwise first-chunk handling followed by the shared loop over the
remaining chunks with `last_finish_reason` starting at `None`. -/
def stream_openrouter : List StreamChunk → List String
  | [] => []
  | first :: rest => orFirstOut first ++ stream_body rest none

/-- `stream_huggingface(prompt, config)` applied to the chunk list: only the
truthy deltas, no finish-reason handling and no truncation marker at all. -/
def stream_huggingface (chunks : List StreamChunk) : List String :=
  pyDeltas chunks

/-- What `stream_openrouter` has yielded when the backend raises after the
listed chunks: the first-chunk output plus the later truthy deltas; the
post-loop truncation check is never reached. -/
def openrouter_emitted : List StreamChunk → List String
  | [] => []
  | first :: rest => orFirstOut first ++ pyDeltas rest

/-- Run `stream_openai` against a backend stream that may raise: on failure
the fragments already yielded are followed by the propagated exception. -/
def stream_openai_run (out : StreamOutcome) : List String × Option String :=
  match out.error with
  | some e => (pyDeltas out.chunks, some e)
  | none => (stream_openai out.chunks, none)

/-- Run `stream_openrouter` against a backend stream that may raise. -/
def stream_openrouter_run (out : StreamOutcome) : List String × Option String :=
  match out.error with
  | some e => (openrouter_emitted out.chunks, some e)
  | none => (stream_openrouter out.chunks, none)

/-- Run `stream_huggingface` against a backend stream that may raise. -/
def stream_huggingface_run (out : StreamOutcome) : List String × Option String :=
  match out.error with
  | some e => (pyDeltas out.chunks, some e)
  | none => (stream_huggingface out.chunks, none)

/-- The external collaborators of the generation layer, as oracles from the
request actually sent to the backend's observable behaviour.
`eval_result` is Modelled from the spec: the `evaluate_metrics` step of
`providers/utils/evaluation_metrics.py` is not part of the sources; per the
spec it is an external quality-scoring step taking the full answer text and
the prompt, which may fail. -/
structure Env where
  openai_complete : ChatRequest → Except String ChatResponse
  openrouter_complete : ChatRequest → Except String ChatResponse
  huggingface_complete : ChatRequest → Except String ChatResponse
  openai_stream : ChatRequest → StreamOutcome
  openrouter_stream : ChatRequest → StreamOutcome
  huggingface_stream : ChatRequest → StreamOutcome
  eval_result : String → String → Except String String

/-! ## Prompt building (`providers/utils/prompts.py`) -/

/-- `config = ModelConfig()` at module level in `prompts.py`. -/
def promptsConfig : ModelConfig := defaultModelConfig

/-- The `PROMPT` template up to the `{tokens}` placeholder. -/
def promptPart1 : String :=
  "\nYou are a skilled research assistant specialized in analyzing Substack newsletters.\nRespond to the user’s query using the provided context from these articles,\nthat is retrieved from a vector database without relying on outside knowledge or assumptions.\n\n\n### Output Rules:\n- Write a detailed, structured answer using **Markdown** (headings, bullet points,\n  short or long paragraphs as appropriate).\n- Use up to **"

/-- The `PROMPT` template between `{tokens}` and `{query}`. -/
def promptPart2 : String :=
  " tokens** without exceeding this limit.\n- Only include facts from the provided context from the articles.\n- Attribute each fact to the correct author(s) and source, and include **clickable links**.\n- If the article author and feed author differ, mention both.\n- There is no need to mention that you based your answer on the provided context.\n- But if no relevant information exists, clearly state this and provide a fallback suggestion.\n- At the very end, include a **funny quote** and wish the user a great day.\n\n### Query:\n"

/-- The `PROMPT` template between `{query}` and `{context_texts}`. -/
def promptPart3 : String := "\n\n### Context Articles:\n"

/-- The `PROMPT` template after `{context_texts}`. -/
def promptPart4 : String := "\n\n### Final Answer:\n"

/-- Python `f"...{x}..."` rendering of a `str | None` value. -/
def pyShow : Option String → String
  | none => "None"
  | some s => s

/-- The per-result block of `build_research_prompt`. -/
def contextBlock {σ : Type} (r : SearchResult σ) : String :=
  "- Feed Name: " ++ pyShow r.feed_name ++ "\n" ++
  "  Article Title: " ++ r.title ++ "\n" ++
  "  Article Author(s): " ++ pyShow r.article_author ++ "\n" ++
  "  Feed Author: " ++ pyShow r.feed_author ++ "\n" ++
  "  URL: " ++ pyShow r.url ++ "\n" ++
  "  Snippet: " ++ pyShow r.chunk_text

/-- `sep.join(blocks)`. -/
def joinSep (sep : String) : List String → String
  | [] => ""
  | [s] => s
  | s :: rest => s ++ sep ++ joinSep sep rest

/-- `build_research_prompt(contexts, query, tokens)`: the `PROMPT` template
with its three named placeholders substituted. -/
def build_research_prompt {σ : Type} (contexts : List (SearchResult σ))
    (query : String) (tokens : Nat) : String :=
  promptPart1 ++ toString tokens ++ promptPart2 ++ query ++ promptPart3 ++
    joinSep "\n\n" (contexts.map contextBlock) ++ promptPart4

/-! ## Batch adapters -/

/-- `generate_openai(prompt, config)` (lines 30–65 of `openai_service.py`):
returns `(content or "", None)`; also records the one request sent. -/
def generate_openai (env : Env) (prompt : String) (config : ModelConfig) :
    Except String (String × Option String) × List ChatRequest :=
  let req := openai_gen_request prompt config
  match env.openai_complete req with
  | Except.error e => (Except.error e, [req])
  | Except.ok resp => (Except.ok (answer_of resp, none), [req])

/-- `generate_openrouter(prompt, config, selected_model)` (lines 61–101 of
`openrouter_service.py`): returns `(answer, model_used, finish_reason)` with
`model_used = choices[0].model or resp.model` and
`finish_reason = choices[0].native_finish_reason`. -/
def generate_openrouter (env : Env) (prompt : String) (config : ModelConfig)
    (selected_model : Option String) :
    Except String (String × Option String × Option String) × List ChatRequest :=
  let req := openrouter_request prompt config selected_model false
  match env.openrouter_complete req with
  | Except.error e => (Except.error e, [req])
  | Except.ok resp =>
    (Except.ok (answer_of resp,
                pyOptOr resp.choice0.model resp.model,
                resp.choice0.native_finish_reason), [req])

/-- `generate_huggingface(prompt, config)` (lines 19–36 of
`huggingface_service.py`): returns `(content or "", None)`. -/
def generate_huggingface (env : Env) (prompt : String) (config : ModelConfig) :
    Except String (String × Option String) × List ChatRequest :=
  let req := huggingface_request prompt config false
  match env.huggingface_complete req with
  | Except.error e => (Except.error e, [req])
  | Except.ok resp => (Except.ok (answer_of resp, none), [req])

/-! ## Generation orchestrator (`generation_service.py`) -/

/-- The `{"answer", "sources", "model", "finish_reason"}` dict returned by
`generate_answer`. -/
structure AnswerDict where
  answer : String
  sources : List (Option String)
  model : Option String
  finish_reason : Option String
  deriving Repr, DecidableEq

/-- `"".join(buffer)`. -/
def pyJoin : List String → String
  | [] => ""
  | s :: rest => s ++ pyJoin rest

/-- `generate_answer(query, contexts, provider, selected_model)`
(lines 20–69 of `generation_service.py`).  Returns the outcome together with
the list of backend requests performed.  The openrouter branch runs
`evaluate_metrics(answer, prompt)` inside its `try`, and its `except` logs
and re-raises, so a failure of either the call or the evaluation propagates. -/
def generate_answer {σ : Type} (env : Env) (reg : ModelRegistry) (query : String)
    (contexts : List (SearchResult σ)) (provider : String)
    (selected_model : Option String) :
    Except String AnswerDict × List ChatRequest :=
  let prompt := build_research_prompt contexts query promptsConfig.max_completion_tokens
  let provider_lower := pyLower provider
  match reg.get_config provider_lower with
  | Except.error e => (Except.error e, [])
  | Except.ok config =>
    if provider_lower = "openai" then
      match generate_openai env prompt config with
      | (Except.error e, calls) => (Except.error e, calls)
      | (Except.ok (answer, model_used), calls) =>
        (Except.ok { answer := answer, sources := contexts.map SearchResult.url,
                     model := model_used, finish_reason := none }, calls)
    else if provider_lower = "openrouter" then
      match generate_openrouter env prompt config selected_model with
      | (Except.error e, calls) => (Except.error e, calls)
      | (Except.ok (answer, model_used, finish_reason), calls) =>
        match env.eval_result answer prompt with
        | Except.error e => (Except.error e, calls)
        | Except.ok _ =>
          (Except.ok { answer := answer, sources := contexts.map SearchResult.url,
                       model := model_used, finish_reason := finish_reason }, calls)
    else if provider_lower = "huggingface" then
      match generate_huggingface env prompt config with
      | (Except.error e, calls) => (Except.error e, calls)
      | (Except.ok (answer, model_used), calls) =>
        (Except.ok { answer := answer, sources := contexts.map SearchResult.url,
                     model := model_used, finish_reason := none }, calls)
    else (Except.error ("Unknown provider: " ++ provider), [])

/-- The event sequence produced by driving the `stream_gen` generator of
`get_streaming_function` (lines 99–137 of `generation_service.py`) to
completion: the yielded chunks plus the exception it propagates, if any.
Only the openrouter branch has a `try`/`except`; it appends one
`"__error__"` chunk when the backend stream or the post-stream
`evaluate_metrics("".join(buffer), prompt)` raises. -/
def stream_gen (env : Env) (config : ModelConfig) (provider : String)
    (prompt : String) (selected_model : Option String) :
    List String × Option String :=
  let provider_lower := pyLower provider
  if provider_lower = "openai" then
    stream_openai_run (env.openai_stream (openai_stream_request prompt config))
  else if provider_lower = "openrouter" then
    match stream_openrouter_run
        (env.openrouter_stream (openrouter_request prompt config selected_model true)) with
    | (emitted, some _) => (emitted ++ ["__error__"], none)
    | (emitted, none) =>
      match env.eval_result (pyJoin emitted) prompt with
      | Except.ok _ => (emitted, none)
      | Except.error _ => (emitted ++ ["__error__"], none)
  else if provider_lower = "huggingface" then
    stream_huggingface_run (env.huggingface_stream (huggingface_request prompt config true))
  else ([], some ("Unknown provider: " ++ provider))

/-- `get_streaming_function(provider, query, contexts, selected_model)`
(lines 75–137): build the prompt, resolve the config (raising before any
backend call when the provider is unknown), and return the behaviour of the
`stream_gen` generator. -/
def get_streaming_function {σ : Type} (env : Env) (reg : ModelRegistry)
    (provider : String) (query : String) (contexts : List (SearchResult σ))
    (selected_model : Option String) :
    Except String (List String × Option String) :=
  let prompt := build_research_prompt contexts query promptsConfig.max_completion_tokens
  match reg.get_config (pyLower provider) with
  | Except.error e => Except.error e
  | Except.ok config => Except.ok (stream_gen env config provider prompt selected_model)

/-! ## Consumer-side observations -/

/-- Whether a yielded chunk is one of the three sentinel markers of the event
protocol (model-selection prefix, truncation, error) rather than answer
content. -/
def isSentinel (s : String) : Bool :=
  (s.data.take modelUsedTag.data.length == modelUsedTag.data) ||
    (s == "__truncated__") || (s == "__error__")

/-- The concatenation of the `Text` (non-sentinel) fragments of an event
sequence — the consumer's reconstruction of the answer. -/
def concatTexts (events : List String) : String :=
  pyJoin (events.filter (fun s => !(isSentinel s)))

/-- The answer text delivered by the batch mode, when it succeeds. -/
def batch_answer {σ : Type} (env : Env) (reg : ModelRegistry) (query : String)
    (contexts : List (SearchResult σ)) (provider : String)
    (selected_model : Option String) : Option String :=
  match (generate_answer env reg query contexts provider selected_model).1 with
  | Except.ok d => some d.answer
  | Except.error _ => none

/-- The answer text reconstructed from the streaming mode, when the stream
completes without propagating an exception. -/
def stream_texts {σ : Type} (env : Env) (reg : ModelRegistry) (provider : String)
    (query : String) (contexts : List (SearchResult σ))
    (selected_model : Option String) : Option String :=
  match get_streaming_function env reg provider query contexts selected_model with
  | Except.ok (events, none) => some (concatTexts events)
  | _ => none
/-! ## Sample data for concrete evaluations -/

/-- Convenience constructor for a concrete payload. -/
def samplePayload (t fa fn aa u ct : Option String) : Payload :=
  { title := t, feed_author := fa, feed_name := fn, article_authors := aa,
    url := u, chunk_text := ct }

/-- A candidate list with a duplicate point id and a duplicate title. -/
def c1Points : List (ScoredPoint Int) :=
  [⟨"a", some (samplePayload (some "T1") (some "f") none none (some "u1") (some "x")), 9⟩,
   ⟨"a", some (samplePayload (some "T1") (some "f") none none (some "u1") (some "y")), 8⟩,
   ⟨"b", some (samplePayload (some "T1") none (some "n") none (some "u2") none), 7⟩,
   ⟨"c", some (samplePayload (some "T2") none none (some "au") (some "u3") (some "z")), 6⟩]

/-- A candidate list whose first point has no usable title. -/
def c9Points : List (ScoredPoint Int) :=
  [⟨"a", some (samplePayload none none none none none none), 3⟩,
   ⟨"b", some (samplePayload (some "T") none none none none none), 2⟩]

/-- A registry with all three providers registered (the code's own default
registry omits `openai`), for exercising every branch. -/
def sampleRegistry : ModelRegistry :=
  { models := [("openai", defaultModelConfig), ("openrouter", defaultModelConfig),
               ("huggingface", defaultModelConfig)] }

/-- A stream chunk carrying content together with a `"length"` finish-reason. -/
def c2Chunk : StreamChunk :=
  { model := none, delta_content := some "Hi", finish_reason := some "length" }

/-- A config whose primary model differs from the hard-coded openai one. -/
def c6Config : ModelConfig :=
  { defaultModelConfig with primary_model := "custom-primary" }

/-- A backend stream that yields one fragment and then raises `"boom"`. -/
def c3ErrOut : StreamOutcome :=
  { chunks := [{ model := none, delta_content := some "Hel", finish_reason := none }],
    error := some "boom" }

/-- An environment whose three streaming backends all raise mid-stream. -/
def c3ErrEnv : Env :=
  { openai_complete := fun _ => Except.error "unused"
    openrouter_complete := fun _ => Except.error "unused"
    huggingface_complete := fun _ => Except.error "unused"
    openai_stream := fun _ => c3ErrOut
    openrouter_stream := fun _ => c3ErrOut
    huggingface_stream := fun _ => c3ErrOut
    eval_result := fun _ _ => Except.ok "metrics" }

/-- An environment where only the huggingface stream raises. -/
def c3Env : Env :=
  { openai_complete := fun _ => Except.error "unused"
    openrouter_complete := fun _ => Except.error "unused"
    huggingface_complete := fun _ => Except.error "unused"
    openai_stream := fun _ => { chunks := [], error := none }
    openrouter_stream := fun _ => { chunks := [], error := none }
    huggingface_stream := fun _ => c3ErrOut
    eval_result := fun _ _ => Except.ok "metrics" }

/-- A successful non-streaming response with answer `"Hi"`. -/
def c5Resp : ChatResponse :=
  { choice0 := { message := { content := some "Hi" }, finish_reason := some "stop",
                 native_finish_reason := some "stop", model := some "served" },
    model := some "served" }

/-- Chunks streaming `"Hi"` in two fragments, ending with finish-reason
`"stop"`. -/
def c5ChunksA : List StreamChunk :=
  [{ model := none, delta_content := some "H", finish_reason := none },
   { model := none, delta_content := some "i", finish_reason := some "stop" }]

/-- Like `c5ChunksA` but the first chunk also reveals the served model. -/
def c5ChunksR : List StreamChunk :=
  [{ model := some "served", delta_content := some "H", finish_reason := none },
   { model := none, delta_content := some "i", finish_reason := some "stop" }]

/-- An environment where every backend succeeds with answer `"Hi"` in both
modes and evaluation succeeds. -/
def c5Env : Env :=
  { openai_complete := fun _ => Except.ok c5Resp
    openrouter_complete := fun _ => Except.ok c5Resp
    huggingface_complete := fun _ => Except.ok c5Resp
    openai_stream := fun _ => { chunks := c5ChunksA, error := none }
    openrouter_stream := fun _ => { chunks := c5ChunksR, error := none }
    huggingface_stream := fun _ => { chunks := c5ChunksA, error := none }
    eval_result := fun _ _ => Except.ok "metrics" }

/-- A successful non-streaming response with answer `"A"`. -/
def c7Resp : ChatResponse :=
  { choice0 := { message := { content := some "A" }, finish_reason := some "stop",
                 native_finish_reason := some "stop", model := none },
    model := some "served" }

/-- An environment where generation succeeds (answer `"A"` in both modes) but
the evaluation step always fails. -/
def c7Env : Env :=
  { openai_complete := fun _ => Except.ok c7Resp
    openrouter_complete := fun _ => Except.ok c7Resp
    huggingface_complete := fun _ => Except.ok c7Resp
    openai_stream := fun _ =>
      { chunks := [{ model := none, delta_content := some "A",
                     finish_reason := some "stop" }], error := none }
    openrouter_stream := fun _ =>
      { chunks := [{ model := none, delta_content := some "A",
                     finish_reason := some "stop" }], error := none }
    huggingface_stream := fun _ =>
      { chunks := [{ model := none, delta_content := some "A",
                     finish_reason := some "stop" }], error := none }
    eval_result := fun _ _ => Except.error "eval down" }

/-- A single-chunk stream with plain content and no finish-reason. -/
def c10Chunks : List StreamChunk :=
  [{ model := none, delta_content := some "Hi", finish_reason := none }]

/-! ## Lemmas about the retrieval dedup loops -/

theorem dedup_by_id_eq_select {σ : Type} (pts : List (ScoredPoint σ)) :
    ∀ seen, dedup_by_id pts seen = (selectById pts seen).map mkResultById := by
  induction pts with
  | nil => intro seen; rfl
  | cons p rest ih =>
    intro seen
    by_cases h : p.id ∈ seen
    · simp [dedup_by_id, selectById, h, ih]
    · simp [dedup_by_id, selectById, h, ih]

theorem selectById_sublist {σ : Type} (pts : List (ScoredPoint σ)) :
    ∀ seen, List.Sublist (selectById pts seen) pts := by
  induction pts with
  | nil => intro seen; simp [selectById]
  | cons p rest ih =>
    intro seen
    by_cases h : p.id ∈ seen
    · simp only [selectById, if_pos h]; exact (ih seen).cons p
    · simp only [selectById, if_neg h]; exact (ih (p.id :: seen)).cons₂ p

theorem selectById_id_not_mem {σ : Type} (pts : List (ScoredPoint σ)) :
    ∀ seen q, q ∈ selectById pts seen → q.id ∉ seen := by
  induction pts with
  | nil => intro seen q hq; simp [selectById] at hq
  | cons p rest ih =>
    intro seen q hq
    by_cases h : p.id ∈ seen
    · rw [selectById, if_pos h] at hq
      exact ih seen q hq
    · rw [selectById, if_neg h] at hq
      rcases List.mem_cons.1 hq with rfl | hq
      · exact h
      · intro hmem
        exact ih (p.id :: seen) q hq (List.mem_cons_of_mem _ hmem)

theorem selectById_ids_nodup {σ : Type} (pts : List (ScoredPoint σ)) :
    ∀ seen, ((selectById pts seen).map ScoredPoint.id).Nodup := by
  induction pts with
  | nil => intro seen; simp [selectById]
  | cons p rest ih =>
    intro seen
    by_cases h : p.id ∈ seen
    · simp only [selectById, if_pos h]; exact ih seen
    · simp only [selectById, if_neg h, List.map_cons, List.nodup_cons]
      refine ⟨?_, ih (p.id :: seen)⟩
      intro hmem
      rcases List.mem_map.1 hmem with ⟨q, hq, hqid⟩
      exact selectById_id_not_mem rest (p.id :: seen) q hq
        (by rw [hqid]; exact List.mem_cons_self _ _)

theorem unique_titles_loop_eq {σ : Type} (limit : Nat) (pts : List (ScoredPoint σ)) :
    ∀ seen results, unique_titles_loop limit pts seen results =
      results ++ (selectByTitle (limit - results.length) pts seen).map mkResultByTitle := by
  induction pts with
  | nil => intro seen results; simp [unique_titles_loop, selectByTitle]
  | cons p rest ih =>
    intro seen results
    cases h : titleOf p with
    | none => simp [unique_titles_loop, selectByTitle, h, ih]
    | some title =>
      by_cases hg : title = "" ∨ title ∈ seen
      · simp [unique_titles_loop, selectByTitle, h, hg, ih]
      · by_cases hlim : limit ≤ results.length + 1
        · have h1 : limit - results.length ≤ 1 := by omega
          simp [unique_titles_loop, selectByTitle, h, hg, hlim, h1]
        · have h1 : ¬ limit - results.length ≤ 1 := by omega
          have h2 : limit - (results.length + 1) = limit - results.length - 1 := by omega
          simp only [unique_titles_loop, selectByTitle, h, if_neg hg, if_neg h1,
            List.length_append, List.length_singleton, if_neg hlim]
          rw [ih (title :: seen) (results ++ [mkResultByTitle p])]
          simp [h2, List.append_assoc]

theorem selectByTitle_sublist {σ : Type} (pts : List (ScoredPoint σ)) :
    ∀ r seen, List.Sublist (selectByTitle r pts seen) pts := by
  induction pts with
  | nil => intro r seen; simp [selectByTitle]
  | cons p rest ih =>
    intro r seen
    cases h : titleOf p with
    | none => simp only [selectByTitle, h]; exact (ih r seen).cons p
    | some title =>
      by_cases hg : title = "" ∨ title ∈ seen
      · simp only [selectByTitle, h, if_pos hg]; exact (ih r seen).cons p
      · by_cases hr : r ≤ 1
        · simp only [selectByTitle, h, if_neg hg, if_pos hr]
          exact (List.nil_sublist rest).cons₂ p
        · simp only [selectByTitle, h, if_neg hg, if_neg hr]
          exact (ih (r - 1) (title :: seen)).cons₂ p

theorem selectByTitle_key_fresh {σ : Type} (pts : List (ScoredPoint σ)) :
    ∀ r seen q, q ∈ selectByTitle r pts seen → titleKey q ∉ seen ∧ titleKey q ≠ "" := by
  induction pts with
  | nil => intro r seen q hq; simp [selectByTitle] at hq
  | cons p rest ih =>
    intro r seen q hq
    cases h : titleOf p with
    | none =>
      simp only [selectByTitle, h] at hq
      exact ih r seen q hq
    | some title =>
      simp only [selectByTitle, h] at hq
      have hkey : titleKey p = title := by simp [titleKey, h]
      by_cases hg : title = "" ∨ title ∈ seen
      · rw [if_pos hg] at hq
        exact ih r seen q hq
      · have hne : title ≠ "" := fun he => hg (Or.inl he)
        have hnm : title ∉ seen := fun hm => hg (Or.inr hm)
        rw [if_neg hg] at hq
        by_cases hr : r ≤ 1
        · rw [if_pos hr] at hq
          rcases List.mem_singleton.1 hq with rfl
          rw [hkey]; exact ⟨hnm, hne⟩
        · rw [if_neg hr] at hq
          rcases List.mem_cons.1 hq with rfl | hq
          · rw [hkey]; exact ⟨hnm, hne⟩
          · have hih := ih (r - 1) (title :: seen) q hq
            exact ⟨fun hmem => hih.1 (List.mem_cons_of_mem _ hmem), hih.2⟩

theorem selectByTitle_keys_nodup {σ : Type} (pts : List (ScoredPoint σ)) :
    ∀ r seen, ((selectByTitle r pts seen).map titleKey).Nodup := by
  induction pts with
  | nil => intro r seen; simp [selectByTitle]
  | cons p rest ih =>
    intro r seen
    cases h : titleOf p with
    | none => simp only [selectByTitle, h]; exact ih r seen
    | some title =>
      have hkey : titleKey p = title := by simp [titleKey, h]
      by_cases hg : title = "" ∨ title ∈ seen
      · simp only [selectByTitle, h, if_pos hg]; exact ih r seen
      · by_cases hr : r ≤ 1
        · simp only [selectByTitle, h, if_neg hg, if_pos hr]
          simp
        · simp only [selectByTitle, h, if_neg hg, if_neg hr, List.map_cons,
            List.nodup_cons]
          refine ⟨?_, ih (r - 1) (title :: seen)⟩
          intro hmem
          rcases List.mem_map.1 hmem with ⟨q, hq, hqkey⟩
          have hfresh := (selectByTitle_key_fresh rest (r - 1) (title :: seen) q hq).1
          rw [hqkey, hkey] at hfresh
          exact hfresh (List.mem_cons_self _ _)

theorem selectByTitle_length {σ : Type} (pts : List (ScoredPoint σ)) :
    ∀ r seen, (selectByTitle r pts seen).length ≤ max 1 r := by
  induction pts with
  | nil => intro r seen; simp [selectByTitle]
  | cons p rest ih =>
    intro r seen
    cases h : titleOf p with
    | none => simp only [selectByTitle, h]; exact ih r seen
    | some title =>
      by_cases hg : title = "" ∨ title ∈ seen
      · simp only [selectByTitle, h, if_pos hg]; exact ih r seen
      · by_cases hr : r ≤ 1
        · simp only [selectByTitle, h, if_neg hg, if_pos hr, List.length_singleton]
          exact Nat.le_max_left 1 r
        · simp only [selectByTitle, h, if_neg hg, if_neg hr, List.length_cons]
          have htail := ih (r - 1) (title :: seen)
          have hm : max 1 (r - 1) = r - 1 := Nat.max_eq_right (by omega)
          rw [hm] at htail
          have hmr : max 1 r = r := Nat.max_eq_right (by omega)
          omega

theorem selectByTitle_zero_of_titled {σ : Type} (pts : List (ScoredPoint σ)) :
    (∃ p ∈ pts, pyHasTitle p = true) → (selectByTitle 0 pts []).length = 1 := by
  induction pts with
  | nil => rintro ⟨p, hp, _⟩; simp at hp
  | cons p rest ih =>
    rintro ⟨q, hq, hqt⟩
    cases h : titleOf p with
    | none =>
      have hq2 : q ∈ rest := by
        rcases List.mem_cons.1 hq with rfl | hq2
        · rw [pyHasTitle, h] at hqt; cases hqt
        · exact hq2
      simp only [selectByTitle, h]
      exact ih ⟨q, hq2, hqt⟩
    | some title =>
      by_cases ht : title = ""
      · have hq2 : q ∈ rest := by
          rcases List.mem_cons.1 hq with rfl | hq2
          · rw [pyHasTitle, h, ht] at hqt; simp at hqt
          · exact hq2
        simp only [selectByTitle, h, if_pos (Or.inl ht)]
        exact ih ⟨q, hq2, hqt⟩
      · have hg : ¬ (title = "" ∨ title ∈ ([] : List String)) := by
          simp [ht]
        simp [selectByTitle, h, if_neg hg, ht]

/-! ## Claim theorems: retrieval -/

/-- Claim C1: for every valid limit `L ≥ 1` and every candidate list returned
by the similarity index, both retrieval variants return at most `L` results,
no two results share the active dedup key (point id for `query_with_filters`,
title for `query_unique_titles`), and the results are built from a
subsequence of the candidate list, i.e. they keep its fused-score order. -/
theorem C1_retrieval_bounded_dedup_ordered {σ : Type}
    (points : List (ScoredPoint σ)) (limit : Nat) (hl : 1 ≤ limit) :
    (∃ sel : List (ScoredPoint σ), List.Sublist sel points ∧
      (sel.map ScoredPoint.id).Nodup ∧ sel.length ≤ limit ∧
      query_with_filters points limit = sel.map mkResultById) ∧
    (∃ sel : List (ScoredPoint σ), List.Sublist sel points ∧
      (sel.map titleKey).Nodup ∧ sel.length ≤ limit ∧
      query_unique_titles points limit = sel.map mkResultByTitle) ∧
    ((query_unique_titles points limit).map SearchResult.title).Nodup ∧
    (query_with_filters points limit).length ≤ limit ∧
    (query_unique_titles points limit).length ≤ limit := by
  have hq : query_with_filters points limit =
      ((selectById points []).take limit).map mkResultById := by
    rw [query_with_filters, dedup_by_id_eq_select, List.map_take]
  have hqt : query_unique_titles points limit =
      (selectByTitle limit points []).map mkResultByTitle := by
    rw [query_unique_titles, unique_titles_loop_eq]
    simp
  have hlen_t : (selectByTitle limit points []).length ≤ limit := by
    have hle := selectByTitle_length points limit []
    rwa [Nat.max_eq_right hl] at hle
  refine ⟨⟨(selectById points []).take limit, ?_, ?_, ?_, hq⟩,
    ⟨selectByTitle limit points [], selectByTitle_sublist points limit [],
      selectByTitle_keys_nodup points limit [], hlen_t, hqt⟩, ?_, ?_, ?_⟩
  · exact (List.take_sublist _ _).trans (selectById_sublist points [])
  · rw [List.map_take]
    exact List.Nodup.sublist (List.take_sublist _ _) (selectById_ids_nodup points [])
  · simp [List.length_take]
  · rw [hqt, List.map_map]
    exact selectByTitle_keys_nodup points limit []
  · rw [hq]
    simp [List.length_take]
  · rw [hqt]
    simpa using hlen_t

theorem C1_witness : 1 ≤ 2 ∧
    ((∃ sel : List (ScoredPoint Int), List.Sublist sel c1Points ∧
      (sel.map ScoredPoint.id).Nodup ∧ sel.length ≤ 2 ∧
      query_with_filters c1Points 2 = sel.map mkResultById) ∧
    (∃ sel : List (ScoredPoint Int), List.Sublist sel c1Points ∧
      (sel.map titleKey).Nodup ∧ sel.length ≤ 2 ∧
      query_unique_titles c1Points 2 = sel.map mkResultByTitle) ∧
    ((query_unique_titles c1Points 2).map SearchResult.title).Nodup ∧
    (query_with_filters c1Points 2).length ≤ 2 ∧
    (query_unique_titles c1Points 2).length ≤ 2) :=
  ⟨by decide, C1_retrieval_bounded_dedup_ordered c1Points 2 (by decide)⟩

/-- Claim C8: a query matching zero candidates (the similarity index returns
an empty candidate list) yields an empty result sequence from both retrieval
modes, for every limit, and no error is raised (both functions are total). -/
theorem C8_empty_candidates (σ : Type) (limit : Nat) :
    query_with_filters ([] : List (ScoredPoint σ)) limit = [] ∧
    query_unique_titles ([] : List (ScoredPoint σ)) limit = [] := by
  constructor
  · simp [query_with_filters, dedup_by_id]
  · rfl

/-- Claim C9: with `limit = 0` the two retrieval modes disagree:
`query_with_filters` returns `[]` (it truncates with `results[:limit]`) while
`query_unique_titles` on a candidate list containing at least one titled point
returns exactly one result, because its stop check `len(results) >= limit`
runs only after a candidate has been appended. -/
theorem C9_limit_zero_divergence {σ : Type} (points : List (ScoredPoint σ))
    (h : ∃ p ∈ points, pyHasTitle p = true) :
    query_with_filters points 0 = [] ∧
    (query_unique_titles points 0).length = 1 := by
  constructor
  · simp [query_with_filters]
  · have hqt : query_unique_titles points 0 =
        (selectByTitle 0 points []).map mkResultByTitle := by
      rw [query_unique_titles, unique_titles_loop_eq]
      simp
    rw [hqt, List.length_map]
    exact selectByTitle_zero_of_titled points h

theorem C9_witness : (∃ p ∈ c9Points, pyHasTitle p = true) ∧
    (query_with_filters c9Points 0 = [] ∧
      (query_unique_titles c9Points 0).length = 1) :=
  ⟨by decide, C9_limit_zero_divergence c9Points (by decide)⟩

/-! ## Lemmas about strings and the stream adapters -/

theorem char_toLower_idem (c : Char) : c.toLower.toLower = c.toLower := by
  by_cases h : c.toNat ≥ 65 ∧ c.toNat ≤ 90
  · have hc : c.toLower = Char.ofNat (c.toNat + 32) := by
      unfold Char.toLower
      rw [if_pos h]
    rw [hc]
    obtain ⟨h1, h2⟩ := h
    generalize c.toNat = n at h1 h2
    interval_cases n <;> decide
  · have hc : c.toLower = c := by
      unfold Char.toLower
      rw [if_neg h]
    simp [hc]

theorem pyLower_idem (s : String) : pyLower (pyLower s) = pyLower s := by
  cases s with
  | mk data =>
    show String.mk ((data.map Char.toLower).map Char.toLower) =
      String.mk (data.map Char.toLower)
    congr 1
    induction data with
    | nil => rfl
    | cons c cs ih => simp [char_toLower_idem c, ih]

theorem pyLower_openai : pyLower "openai" = "openai" := by decide

theorem pyLower_openrouter : pyLower "openrouter" = "openrouter" := by decide

theorem pyLower_huggingface : pyLower "huggingface" = "huggingface" := by decide

theorem str_empty_append (s : String) : "" ++ s = s := by
  cases s
  rfl

theorem pyJoin_append (a b : List String) :
    pyJoin (a ++ b) = pyJoin a ++ pyJoin b := by
  induction a with
  | nil => simp [pyJoin, str_empty_append]
  | cons s rest ih => simp [pyJoin, ih, String.append_assoc]

theorem pyDeltas_cons (c : StreamChunk) (rest : List StreamChunk) :
    pyDeltas (c :: rest) = (chunkDelta c).toList ++ pyDeltas rest := by
  cases hc : chunkDelta c <;> simp [pyDeltas, List.filterMap_cons, hc]

theorem chunkDelta_some_ne (c : StreamChunk) (s : String)
    (h : chunkDelta c = some s) : s ≠ "" := by
  unfold chunkDelta at h
  cases hdc : c.delta_content with
  | none => simp [hdc] at h
  | some t =>
    simp only [hdc] at h
    by_cases ht : t = ""
    · rw [if_pos ht] at h; cases h
    · rw [if_neg ht] at h
      injection h with h2
      rw [← h2]
      exact ht

theorem mem_pyDeltas_ne_empty (chunks : List StreamChunk) (s : String)
    (h : s ∈ pyDeltas chunks) : s ≠ "" := by
  rcases List.mem_filterMap.1 h with ⟨c, _, hcd⟩
  exact chunkDelta_some_ne c s hcd

theorem stream_body_eq (chunks : List StreamChunk) :
    ∀ last, stream_body chunks last = pyDeltas chunks ++
      (if lastFinish chunks last = some "length" then ["__truncated__"] else []) := by
  induction chunks with
  | nil => intro last; simp [stream_body, pyDeltas, lastFinish]
  | cons c rest ih =>
    intro last
    rw [stream_body, lastFinish, pyDeltas_cons, ih, List.append_assoc]

theorem modelUsedTag_append_data (m : String) :
    (modelUsedTag ++ m).data = modelUsedTag.data ++ m.data := by
  cases m
  rfl

theorem isSentinel_model_marker (m : String) :
    isSentinel (modelUsedTag ++ m) = true := by
  simp [isSentinel, modelUsedTag_append_data, List.take_left]

theorem model_marker_ne_empty (m : String) : modelUsedTag ++ m ≠ "" := by
  intro he
  have hdata := congrArg String.data he
  rw [modelUsedTag_append_data] at hdata
  have hnil := List.append_eq_nil.1 hdata
  have : modelUsedTag.data = [] := hnil.1
  simp [modelUsedTag] at this

theorem concatTexts_append (a b : List String) :
    concatTexts (a ++ b) = concatTexts a ++ concatTexts b := by
  simp [concatTexts, List.filter_append, pyJoin_append]

theorem concatTexts_clean (l : List String)
    (h : ∀ s ∈ l, isSentinel s = false) : concatTexts l = pyJoin l := by
  rw [concatTexts, List.filter_eq_self.mpr]
  intro s hs
  simp [h s hs]

theorem concatTexts_model_marker (m : String) :
    concatTexts [modelUsedTag ++ m] = "" := by
  simp [concatTexts, isSentinel_model_marker, pyJoin]

/-! ## Branch evaluation lemmas for the orchestrator -/

theorem generate_answer_openai_eq {σ : Type} (env : Env) (reg : ModelRegistry)
    (query : String) (contexts : List (SearchResult σ)) (sm : Option String)
    (cfg : ModelConfig) (h0 : reg.models.lookup "openai" = some cfg) :
    generate_answer env reg query contexts "openai" sm =
      (match generate_openai env
          (build_research_prompt contexts query promptsConfig.max_completion_tokens) cfg with
       | (Except.error e, calls) => (Except.error e, calls)
       | (Except.ok (answer, model_used), calls) =>
         (Except.ok { answer := answer, sources := contexts.map SearchResult.url,
                      model := model_used, finish_reason := none }, calls)) := by
  have hcfg : reg.get_config "openai" = Except.ok cfg := by
    simp [ModelRegistry.get_config, pyLower_openai, h0]
  simp only [generate_answer, pyLower_openai, hcfg]
  simp

theorem generate_answer_openrouter_eq {σ : Type} (env : Env) (reg : ModelRegistry)
    (query : String) (contexts : List (SearchResult σ)) (sm : Option String)
    (cfg : ModelConfig) (h0 : reg.models.lookup "openrouter" = some cfg) :
    generate_answer env reg query contexts "openrouter" sm =
      (let prompt := build_research_prompt contexts query promptsConfig.max_completion_tokens
       match generate_openrouter env prompt cfg sm with
       | (Except.error e, calls) => (Except.error e, calls)
       | (Except.ok (answer, model_used, finish_reason), calls) =>
         match env.eval_result answer prompt with
         | Except.error e => (Except.error e, calls)
         | Except.ok _ =>
           (Except.ok { answer := answer, sources := contexts.map SearchResult.url,
                        model := model_used, finish_reason := finish_reason }, calls)) := by
  have hcfg : reg.get_config "openrouter" = Except.ok cfg := by
    simp [ModelRegistry.get_config, pyLower_openrouter, h0]
  simp only [generate_answer, pyLower_openrouter, hcfg]
  simp

theorem generate_answer_huggingface_eq {σ : Type} (env : Env) (reg : ModelRegistry)
    (query : String) (contexts : List (SearchResult σ)) (sm : Option String)
    (cfg : ModelConfig) (h0 : reg.models.lookup "huggingface" = some cfg) :
    generate_answer env reg query contexts "huggingface" sm =
      (match generate_huggingface env
          (build_research_prompt contexts query promptsConfig.max_completion_tokens) cfg with
       | (Except.error e, calls) => (Except.error e, calls)
       | (Except.ok (answer, model_used), calls) =>
         (Except.ok { answer := answer, sources := contexts.map SearchResult.url,
                      model := model_used, finish_reason := none }, calls)) := by
  have hcfg : reg.get_config "huggingface" = Except.ok cfg := by
    simp [ModelRegistry.get_config, pyLower_huggingface, h0]
  simp only [generate_answer, pyLower_huggingface, hcfg]
  simp

theorem get_streaming_function_openai_eq {σ : Type} (env : Env) (reg : ModelRegistry)
    (query : String) (contexts : List (SearchResult σ)) (sm : Option String)
    (cfg : ModelConfig) (h0 : reg.models.lookup "openai" = some cfg) :
    get_streaming_function env reg "openai" query contexts sm =
      Except.ok (stream_openai_run (env.openai_stream (openai_stream_request
        (build_research_prompt contexts query promptsConfig.max_completion_tokens) cfg))) := by
  have hcfg : reg.get_config "openai" = Except.ok cfg := by
    simp [ModelRegistry.get_config, pyLower_openai, h0]
  simp only [get_streaming_function, pyLower_openai, hcfg, stream_gen]
  simp

theorem get_streaming_function_openrouter_eq {σ : Type} (env : Env) (reg : ModelRegistry)
    (query : String) (contexts : List (SearchResult σ)) (sm : Option String)
    (cfg : ModelConfig) (h0 : reg.models.lookup "openrouter" = some cfg) :
    get_streaming_function env reg "openrouter" query contexts sm =
      Except.ok
        (let prompt := build_research_prompt contexts query promptsConfig.max_completion_tokens
         match stream_openrouter_run
             (env.openrouter_stream (openrouter_request prompt cfg sm true)) with
         | (emitted, some _) => (emitted ++ ["__error__"], none)
         | (emitted, none) =>
           match env.eval_result (pyJoin emitted) prompt with
           | Except.ok _ => (emitted, none)
           | Except.error _ => (emitted ++ ["__error__"], none)) := by
  have hcfg : reg.get_config "openrouter" = Except.ok cfg := by
    simp [ModelRegistry.get_config, pyLower_openrouter, h0]
  simp only [get_streaming_function, pyLower_openrouter, hcfg, stream_gen]
  simp

theorem get_streaming_function_huggingface_eq {σ : Type} (env : Env) (reg : ModelRegistry)
    (query : String) (contexts : List (SearchResult σ)) (sm : Option String)
    (cfg : ModelConfig) (h0 : reg.models.lookup "huggingface" = some cfg) :
    get_streaming_function env reg "huggingface" query contexts sm =
      Except.ok (stream_huggingface_run (env.huggingface_stream (huggingface_request
        (build_research_prompt contexts query promptsConfig.max_completion_tokens) cfg true))) := by
  have hcfg : reg.get_config "huggingface" = Except.ok cfg := by
    simp [ModelRegistry.get_config, pyLower_huggingface, h0]
  simp only [get_streaming_function, pyLower_huggingface, hcfg, stream_gen]
  simp

/-! ## Claim theorems: stream adapters -/

/-- Claim C2 (amended): the truncation marker behaviour differs per adapter.
`stream_openai` appends exactly one `"__truncated__"` marker as its final
element iff the last truthy finish-reason of the whole stream is `"length"`;
`stream_openrouter` does the same but inspects only the finish-reasons from
the second chunk onward (the first chunk's finish-reason is never read), and
an empty stream yields nothing; `stream_huggingface` yields only the truthy
delta fragments and never emits a truncation marker. -/
theorem C2_truncation_marker_by_adapter (chunks : List StreamChunk)
    (first : StreamChunk) :
    stream_openai chunks = pyDeltas chunks ++
      (if lastFinish chunks none = some "length" then ["__truncated__"] else []) ∧
    stream_openrouter [] = ([] : List String) ∧
    stream_openrouter (first :: chunks) = orFirstOut first ++ (pyDeltas chunks ++
      (if lastFinish chunks none = some "length" then ["__truncated__"] else [])) ∧
    stream_huggingface chunks = pyDeltas chunks := by
  refine ⟨stream_body_eq chunks none, rfl, ?_, rfl⟩
  simp only [stream_openrouter]
  rw [stream_body_eq]

/-- Claim C2 is false as stated: the huggingface adapter, fed a stream whose
terminal finish-reason is the length cutoff `"length"`, emits no `Truncated`
marker at all. -/
theorem C2_counterexample :
    lastFinish [c2Chunk] none = some "length" ∧
    stream_huggingface [c2Chunk] = ["Hi"] ∧
    "__truncated__" ∉ stream_huggingface [c2Chunk] := by
  refine ⟨by decide, by decide, by decide⟩

/-- Claim C10: every fragment yielded by any provider's streaming adapter is
a non-empty string — `None`/empty deltas are filtered out before being
yielded, and the sentinel chunks are non-empty string literals. -/
theorem C10_nonempty_fragments (chunks : List StreamChunk) (s : String) :
    (s ∈ stream_openai chunks → s ≠ "") ∧
    (s ∈ stream_openrouter chunks → s ≠ "") ∧
    (s ∈ stream_huggingface chunks → s ≠ "") := by
  have hbody : ∀ (ch : List StreamChunk) (l : Option String),
      s ∈ stream_body ch l → s ≠ "" := by
    intro ch l h
    rw [stream_body_eq] at h
    rcases List.mem_append.1 h with h | h
    · exact mem_pyDeltas_ne_empty ch s h
    · by_cases hl : lastFinish ch l = some "length"
      · rw [if_pos hl] at h
        rw [List.mem_singleton.1 h]
        decide
      · rw [if_neg hl] at h
        cases h
  refine ⟨hbody chunks none, ?_, mem_pyDeltas_ne_empty chunks s⟩
  intro h
  cases chunks with
  | nil => cases h
  | cons first rest =>
    simp only [stream_openrouter] at h
    rcases List.mem_append.1 h with h | h
    · simp only [orFirstOut] at h
      rcases List.mem_append.1 h with h | h
      · cases hm : first.model with
        | none => simp [hm] at h
        | some m =>
          simp only [hm] at h
          by_cases hme : m = ""
          · rw [if_pos hme] at h; cases h
          · rw [if_neg hme] at h
            rw [List.mem_singleton.1 h]
            exact model_marker_ne_empty m
      · cases hc : chunkDelta first with
        | none => simp [hc] at h
        | some d =>
          simp only [hc, Option.toList] at h
          rw [List.mem_singleton.1 h]
          exact chunkDelta_some_ne first d hc
    · exact hbody rest none h

theorem C10_witness : ("Hi" ∈ stream_openai c10Chunks) ∧ ("Hi" : String) ≠ "" :=
  ⟨by decide, (C10_nonempty_fragments c10Chunks "Hi").1 (by decide)⟩

/-! ## Claim theorems: model selection -/

/-- Claim C6 (amended): only the openrouter adapter honours the per-call
override — its requests use the override when it is a non-empty string and
the configured primary model otherwise.  The openai batch adapter always
requests the hard-coded `"gpt-4o-mini"`, ignoring both override and
configured primary model; the openai streaming, huggingface batch and
huggingface streaming requests always use the configured primary model. -/
theorem C6_model_selection (prompt : String) (config : ModelConfig) (m : String)
    (st : Bool) (hm : m ≠ "") :
    (openrouter_request prompt config (some m) st).model = m ∧
    (openrouter_request prompt config none st).model = config.primary_model ∧
    (openai_gen_request prompt config).model = "gpt-4o-mini" ∧
    (openai_stream_request prompt config).model = config.primary_model ∧
    (huggingface_request prompt config st).model = config.primary_model := by
  refine ⟨?_, rfl, rfl, rfl, rfl⟩
  simp [openrouter_request, pyStrOr, hm]

theorem C6_witness : ("override-model" : String) ≠ "" ∧
    ((openrouter_request "p" defaultModelConfig (some "override-model") false).model =
        "override-model" ∧
     (openrouter_request "p" defaultModelConfig none false).model =
        defaultModelConfig.primary_model ∧
     (openai_gen_request "p" defaultModelConfig).model = "gpt-4o-mini" ∧
     (openai_stream_request "p" defaultModelConfig).model =
        defaultModelConfig.primary_model ∧
     (huggingface_request "p" defaultModelConfig false).model =
        defaultModelConfig.primary_model) :=
  ⟨by decide, C6_model_selection "p" defaultModelConfig "override-model" false (by decide)⟩

/-- Claim C6 is false as stated: with no override supplied, the openai batch
adapter requests the hard-coded `"gpt-4o-mini"` instead of the configured
primary model. -/
theorem C6_counterexample :
    (openai_gen_request "p" c6Config).model = "gpt-4o-mini" ∧
    c6Config.primary_model = "custom-primary" ∧
    ("gpt-4o-mini" : String) ≠ "custom-primary" := by
  refine ⟨rfl, rfl, by decide⟩

/-! ## Claim theorems: orchestrator error handling and resolution -/

/-- Claim C3 (amended): only the openrouter branch of `stream_gen` catches a
mid-stream backend exception — there the event sequence is the already
emitted chunks followed by exactly one `"__error__"` event with nothing after
it, and no exception propagates.  The openai and huggingface branches
propagate the exception after the already-emitted fragments and emit no error
event at all. -/
theorem C3_stream_error_events {σ : Type} (env : Env) (reg : ModelRegistry)
    (query : String) (contexts : List (SearchResult σ)) (sm : Option String)
    (cfgA cfgR cfgH : ModelConfig) (outA outR outH : StreamOutcome)
    (eA eR eH : String) (P : String)
    (hP : P = build_research_prompt contexts query promptsConfig.max_completion_tokens)
    (hA0 : reg.models.lookup "openai" = some cfgA)
    (hR0 : reg.models.lookup "openrouter" = some cfgR)
    (hH0 : reg.models.lookup "huggingface" = some cfgH)
    (hA1 : env.openai_stream (openai_stream_request P cfgA) = outA)
    (hA2 : outA.error = some eA)
    (hR1 : env.openrouter_stream (openrouter_request P cfgR sm true) = outR)
    (hR2 : outR.error = some eR)
    (hH1 : env.huggingface_stream (huggingface_request P cfgH true) = outH)
    (hH2 : outH.error = some eH) :
    get_streaming_function env reg "openrouter" query contexts sm =
      Except.ok (openrouter_emitted outR.chunks ++ ["__error__"], none) ∧
    get_streaming_function env reg "openai" query contexts sm =
      Except.ok (pyDeltas outA.chunks, some eA) ∧
    get_streaming_function env reg "huggingface" query contexts sm =
      Except.ok (pyDeltas outH.chunks, some eH) := by
  subst hP
  refine ⟨?_, ?_, ?_⟩
  · rw [get_streaming_function_openrouter_eq env reg query contexts sm cfgR hR0]
    simp [hR1, stream_openrouter_run, hR2]
  · rw [get_streaming_function_openai_eq env reg query contexts sm cfgA hA0]
    simp [hA1, stream_openai_run, hA2]
  · rw [get_streaming_function_huggingface_eq env reg query contexts sm cfgH hH0]
    simp [hH1, stream_huggingface_run, hH2]

theorem C3_witness :
    (sampleRegistry.models.lookup "openrouter" = some defaultModelConfig) ∧
    (get_streaming_function c3ErrEnv sampleRegistry "openrouter" "q"
        ([] : List (SearchResult Int)) none =
      Except.ok (openrouter_emitted c3ErrOut.chunks ++ ["__error__"], none) ∧
    get_streaming_function c3ErrEnv sampleRegistry "openai" "q"
        ([] : List (SearchResult Int)) none =
      Except.ok (pyDeltas c3ErrOut.chunks, some "boom") ∧
    get_streaming_function c3ErrEnv sampleRegistry "huggingface" "q"
        ([] : List (SearchResult Int)) none =
      Except.ok (pyDeltas c3ErrOut.chunks, some "boom")) :=
  ⟨by decide, C3_stream_error_events c3ErrEnv sampleRegistry "q" [] none
    defaultModelConfig defaultModelConfig defaultModelConfig c3ErrOut c3ErrOut c3ErrOut
    "boom" "boom" "boom" _ rfl (by decide) (by decide) (by decide) rfl rfl rfl rfl rfl rfl⟩

/-- Claim C3 is false as stated: for the huggingface provider (under the
code's own registry), a backend raising after one fragment yields an event
sequence with no `"__error__"` event; the exception propagates instead. -/
theorem C3_counterexample :
    get_streaming_function c3Env MODEL_REGISTRY "huggingface" "q"
        ([] : List (SearchResult Int)) none = Except.ok (["Hel"], some "boom") ∧
    "__error__" ∉ (["Hel"] : List String) := by
  refine ⟨rfl, by decide⟩

/-- Claim C4: provider resolution is keyed on the lowercased name
(case-insensitive), and for every provider whose lowercased form is not
registered, both `generate_answer` and `get_streaming_function` fail with the
unknown-provider `ValueError` — for every environment — and the recorded
backend-request trace is empty (no network call is performed). -/
theorem C4_unknown_provider {σ : Type} (env : Env) (reg : ModelRegistry)
    (p q provider query : String) (contexts : List (SearchResult σ))
    (sm : Option String) (hpq : pyLower p = pyLower q)
    (hmiss : reg.models.lookup (pyLower provider) = none) :
    (∀ c, reg.get_config p = Except.ok c ↔ reg.get_config q = Except.ok c) ∧
    generate_answer env reg query contexts provider sm =
      (Except.error ("ModelConfig not found for provider: " ++ pyLower provider), []) ∧
    get_streaming_function env reg provider query contexts sm =
      Except.error ("ModelConfig not found for provider: " ++ pyLower provider) := by
  have herr : reg.get_config (pyLower provider) =
      Except.error ("ModelConfig not found for provider: " ++ pyLower provider) := by
    simp [ModelRegistry.get_config, pyLower_idem, hmiss]
  refine ⟨?_, ?_, ?_⟩
  · intro c
    cases h : reg.models.lookup (pyLower q) <;>
      simp [ModelRegistry.get_config, hpq, h]
  · simp [generate_answer, herr]
  · simp [get_streaming_function, herr]

theorem C4_witness :
    (MODEL_REGISTRY.models.lookup (pyLower "not-a-real-provider") = none) ∧
    ((∀ c, MODEL_REGISTRY.get_config "OpenRouter" = Except.ok c ↔
        MODEL_REGISTRY.get_config "openrouter" = Except.ok c) ∧
    generate_answer c5Env MODEL_REGISTRY "q" ([] : List (SearchResult Int))
        "not-a-real-provider" none =
      (Except.error ("ModelConfig not found for provider: " ++
        pyLower "not-a-real-provider"), []) ∧
    get_streaming_function c5Env MODEL_REGISTRY "not-a-real-provider" "q"
        ([] : List (SearchResult Int)) none =
      Except.error ("ModelConfig not found for provider: " ++
        pyLower "not-a-real-provider")) :=
  ⟨by decide, C4_unknown_provider c5Env MODEL_REGISTRY "OpenRouter" "openrouter"
    "not-a-real-provider" "q" [] none (by decide) (by decide)⟩

/-- Claim C7 (amended): after a successful generation, a failure of the
evaluation step does affect the outcome: in batch mode `generate_answer`
re-raises the evaluation error instead of returning the generated answer,
and in streaming mode the already-emitted fragments are unchanged but exactly
one additional `"__error__"` event is appended. -/
theorem C7_eval_failure_effects {σ : Type} (env : Env) (reg : ModelRegistry)
    (query : String) (contexts : List (SearchResult σ)) (sm : Option String)
    (cfg : ModelConfig) (resp : ChatResponse) (chunks : List StreamChunk)
    (e1 e2 : String) (P : String)
    (hP : P = build_research_prompt contexts query promptsConfig.max_completion_tokens)
    (h0 : reg.models.lookup "openrouter" = some cfg)
    (hb : env.openrouter_complete (openrouter_request P cfg sm false) = Except.ok resp)
    (hbe : env.eval_result (answer_of resp) P = Except.error e1)
    (hs : env.openrouter_stream (openrouter_request P cfg sm true) = ⟨chunks, none⟩)
    (hse : env.eval_result (pyJoin (stream_openrouter chunks)) P = Except.error e2) :
    generate_answer env reg query contexts "openrouter" sm =
      (Except.error e1, [openrouter_request P cfg sm false]) ∧
    get_streaming_function env reg "openrouter" query contexts sm =
      Except.ok (stream_openrouter chunks ++ ["__error__"], none) := by
  subst hP
  constructor
  · rw [generate_answer_openrouter_eq env reg query contexts sm cfg h0]
    simp [generate_openrouter, hb, hbe]
  · rw [get_streaming_function_openrouter_eq env reg query contexts sm cfg h0]
    simp [hs, stream_openrouter_run, hse]

theorem C7_witness :
    (sampleRegistry.models.lookup "openrouter" = some defaultModelConfig) ∧
    (generate_answer c7Env sampleRegistry "q" ([] : List (SearchResult Int))
        "openrouter" none =
      (Except.error "eval down",
       [openrouter_request (build_research_prompt ([] : List (SearchResult Int))
          "q" promptsConfig.max_completion_tokens) defaultModelConfig none false]) ∧
    get_streaming_function c7Env sampleRegistry "openrouter" "q"
        ([] : List (SearchResult Int)) none =
      Except.ok (stream_openrouter
        [{ model := none, delta_content := some "A", finish_reason := some "stop" }] ++
        ["__error__"], none)) :=
  ⟨by decide, C7_eval_failure_effects c7Env sampleRegistry "q" [] none
    defaultModelConfig c7Resp
    [{ model := none, delta_content := some "A", finish_reason := some "stop" }]
    "eval down" "eval down" _ rfl (by decide) rfl rfl rfl rfl⟩

/-- Claim C7 is false as stated: with a backend that successfully generates
`"A"` and a failing evaluation step, the batch call returns an error instead
of the generated answer, and the streaming sequence gains an additional
`"__error__"` event after the delivered fragment. -/
theorem C7_counterexample :
    (generate_answer c7Env MODEL_REGISTRY "q" ([] : List (SearchResult Int))
        "openrouter" none).1 = Except.error "eval down" ∧
    get_streaming_function c7Env MODEL_REGISTRY "openrouter" "q"
        ([] : List (SearchResult Int)) none =
      Except.ok (["A", "__error__"], none) := by
  refine ⟨rfl, rfl⟩

/-! ## Claim theorem: batch / streaming round-trip -/

theorem concatTexts_stream_openai (chunks : List StreamChunk)
    (hnt : lastFinish chunks none ≠ some "length")
    (hclean : ∀ s ∈ pyDeltas chunks, isSentinel s = false) :
    concatTexts (stream_openai chunks) = pyJoin (pyDeltas chunks) := by
  rw [stream_openai, stream_body_eq, if_neg hnt, List.append_nil]
  exact concatTexts_clean _ hclean

theorem concatTexts_stream_openrouter (chunks : List StreamChunk)
    (hnt : lastFinish chunks.tail none ≠ some "length")
    (hclean : ∀ s ∈ pyDeltas chunks, isSentinel s = false) :
    concatTexts (stream_openrouter chunks) = pyJoin (pyDeltas chunks) := by
  cases chunks with
  | nil => rfl
  | cons f rest =>
    simp only [List.tail_cons] at hnt
    simp only [stream_openrouter, orFirstOut, List.append_assoc]
    rw [stream_body_eq, if_neg hnt, List.append_nil, concatTexts_append]
    have hmk : concatTexts
        (match f.model with
         | some m => if m = "" then [] else [modelUsedTag ++ m]
         | none => []) = "" := by
      cases hm : f.model with
      | none => rfl
      | some m =>
        simp only [hm]
        by_cases hme : m = ""
        · rw [if_pos hme]; rfl
        · rw [if_neg hme]
          exact concatTexts_model_marker m
    rw [hmk, str_empty_append, ← pyDeltas_cons]
    exact concatTexts_clean _ hclean

/-- Claim C5: for every backend, given a fixed non-truncated answer served in
both modes (the batch response's content and the concatenation of the
stream's truthy deltas agree, no delta collides with a sentinel marker, and
the evaluation step succeeds), the batch mode and the streaming mode deliver
the same final answer text for the same prompt. -/
theorem C5_batch_stream_equivalence {σ : Type} (env : Env) (reg : ModelRegistry)
    (query : String) (contexts : List (SearchResult σ)) (sm : Option String)
    (cfgA cfgR cfgH : ModelConfig) (respA respR respH : ChatResponse)
    (chA chR chH : List StreamChunk) (P : String)
    (hP : P = build_research_prompt contexts query promptsConfig.max_completion_tokens)
    (hA0 : reg.models.lookup "openai" = some cfgA)
    (hR0 : reg.models.lookup "openrouter" = some cfgR)
    (hH0 : reg.models.lookup "huggingface" = some cfgH)
    (heval : ∀ s t : String, ∃ r, env.eval_result s t = Except.ok r)
    (hA1 : env.openai_complete (openai_gen_request P cfgA) = Except.ok respA)
    (hA2 : env.openai_stream (openai_stream_request P cfgA) = ⟨chA, none⟩)
    (hA3 : pyJoin (pyDeltas chA) = answer_of respA)
    (hA4 : lastFinish chA none ≠ some "length")
    (hA5 : ∀ s ∈ pyDeltas chA, isSentinel s = false)
    (hR1 : env.openrouter_complete (openrouter_request P cfgR sm false) = Except.ok respR)
    (hR2 : env.openrouter_stream (openrouter_request P cfgR sm true) = ⟨chR, none⟩)
    (hR3 : pyJoin (pyDeltas chR) = answer_of respR)
    (hR4 : lastFinish chR.tail none ≠ some "length")
    (hR5 : ∀ s ∈ pyDeltas chR, isSentinel s = false)
    (hH1 : env.huggingface_complete (huggingface_request P cfgH false) = Except.ok respH)
    (hH2 : env.huggingface_stream (huggingface_request P cfgH true) = ⟨chH, none⟩)
    (hH3 : pyJoin (pyDeltas chH) = answer_of respH)
    (hH5 : ∀ s ∈ pyDeltas chH, isSentinel s = false) :
    (batch_answer env reg query contexts "openai" sm = some (answer_of respA) ∧
     stream_texts env reg "openai" query contexts sm = some (answer_of respA)) ∧
    (batch_answer env reg query contexts "openrouter" sm = some (answer_of respR) ∧
     stream_texts env reg "openrouter" query contexts sm = some (answer_of respR)) ∧
    (batch_answer env reg query contexts "huggingface" sm = some (answer_of respH) ∧
     stream_texts env reg "huggingface" query contexts sm = some (answer_of respH)) := by
  subst hP
  obtain ⟨rA, hrA⟩ := heval (answer_of respR)
    (build_research_prompt contexts query promptsConfig.max_completion_tokens)
  obtain ⟨rS, hrS⟩ := heval (pyJoin (stream_openrouter chR))
    (build_research_prompt contexts query promptsConfig.max_completion_tokens)
  refine ⟨⟨?_, ?_⟩, ⟨?_, ?_⟩, ⟨?_, ?_⟩⟩
  · simp only [batch_answer,
      generate_answer_openai_eq env reg query contexts sm cfgA hA0,
      generate_openai, hA1]
  · have hsf : get_streaming_function env reg "openai" query contexts sm =
        Except.ok (stream_openai chA, none) := by
      rw [get_streaming_function_openai_eq env reg query contexts sm cfgA hA0, hA2]
      rfl
    simp only [stream_texts, hsf]
    rw [concatTexts_stream_openai chA hA4 hA5, hA3]
  · simp only [batch_answer,
      generate_answer_openrouter_eq env reg query contexts sm cfgR hR0,
      generate_openrouter, hR1, hrA]
  · have hsf : get_streaming_function env reg "openrouter" query contexts sm =
        Except.ok (stream_openrouter chR, none) := by
      rw [get_streaming_function_openrouter_eq env reg query contexts sm cfgR hR0]
      simp [hR2, stream_openrouter_run, hrS]
    simp only [stream_texts, hsf]
    rw [concatTexts_stream_openrouter chR hR4 hR5, hR3]
  · simp only [batch_answer,
      generate_answer_huggingface_eq env reg query contexts sm cfgH hH0,
      generate_huggingface, hH1]
  · have hsf : get_streaming_function env reg "huggingface" query contexts sm =
        Except.ok (stream_huggingface chH, none) := by
      rw [get_streaming_function_huggingface_eq env reg query contexts sm cfgH hH0, hH2]
      rfl
    simp only [stream_texts, hsf]
    rw [show stream_huggingface chH = pyDeltas chH from rfl,
      concatTexts_clean _ hH5, hH3]

theorem C5_witness :
    (sampleRegistry.models.lookup "openai" = some defaultModelConfig) ∧
    ((batch_answer c5Env sampleRegistry "q" ([] : List (SearchResult Int))
        "openai" none = some (answer_of c5Resp) ∧
      stream_texts c5Env sampleRegistry "openai" "q" ([] : List (SearchResult Int))
        none = some (answer_of c5Resp)) ∧
    (batch_answer c5Env sampleRegistry "q" ([] : List (SearchResult Int))
        "openrouter" none = some (answer_of c5Resp) ∧
      stream_texts c5Env sampleRegistry "openrouter" "q" ([] : List (SearchResult Int))
        none = some (answer_of c5Resp)) ∧
    (batch_answer c5Env sampleRegistry "q" ([] : List (SearchResult Int))
        "huggingface" none = some (answer_of c5Resp) ∧
      stream_texts c5Env sampleRegistry "huggingface" "q" ([] : List (SearchResult Int))
        none = some (answer_of c5Resp))) :=
  ⟨by decide, C5_batch_stream_equivalence c5Env sampleRegistry "q" [] none
    defaultModelConfig defaultModelConfig defaultModelConfig c5Resp c5Resp c5Resp
    c5ChunksA c5ChunksR c5ChunksA _ rfl (by decide) (by decide) (by decide)
    (fun s t => ⟨"metrics", rfl⟩) rfl rfl (by decide) (by decide) (by decide)
    rfl rfl (by decide) (by decide) (by decide) rfl rfl (by decide) (by decide)⟩
